import Mathlib

/-!
Shallow embedding of the `agenda` module (src/lib.rs): a personal-record
manager with two collections, contacts (`Contato`) and appointments
(`Compromisso`), keyed by an auto-incremented u32 identifier.

Rust strings are modelled as `List Char`; the u32 identifier counters are
modelled as `Nat` together with explicit `2 ^ 32` bounds where overflow
matters.  `ink::storage::Mapping` is modelled as `Nat → Option α`.
A Rust panic (the `checked_add(1).expect("Overflow")` in the creation
paths) is modelled by an outer `Option`: `none` means the call aborted.
-/

/-- `str::parse::<u32>().ok()`: an optional leading `+`, then one or more
ASCII digits, and the value must fit in a `u32`; anything else fails. -/
def parseU32 (s : List Char) : Option Nat :=
  let t := match s with
    | '+' :: rest => rest
    | _ => s
  if t ≠ [] ∧ t.all Char.isDigit then
    let n := t.foldl (fun acc c => acc * 10 + (c.toNat - 48)) 0
    if n < 2 ^ 32 then some n else none
  else none

/-- Rust `str::split(sep)`: splits on every occurrence of the separator,
keeping empty tokens (so the result is never the empty list). -/
def splitChar (sep : Char) : List Char → List (List Char)
  | [] => [[]]
  | c :: cs =>
    if c = sep then [] :: splitChar sep cs
    else
      match splitChar sep cs with
      | t :: ts => (c :: t) :: ts
      | [] => [[c]]

/-- `u32::checked_add` (for operands already in u32 range). -/
def checked_add (a b : Nat) : Option Nat :=
  if a + b < 2 ^ 32 then some (a + b) else none

inductive Categoria where
  | Amigo
  | Familiar
  | Colega
deriving DecidableEq, Repr

structure Contato where
  nome : List Char
  telefone : List Char
  idade : Nat
  data_aniversario : List Char
  categoria : Categoria
deriving DecidableEq, Repr

inductive Prioridade where
  | Alta
  | Media
  | Baixa
deriving DecidableEq, Repr

structure Compromisso where
  titulo : List Char
  data : List Char
  hora : List Char
  prioridade : Prioridade
  duracao : Int
deriving DecidableEq, Repr

/-- `ink::storage::Mapping<u32, α>`. -/
def Mapping (α : Type) : Type := Nat → Option α

def Mapping.get {α : Type} (m : Mapping α) (id : Nat) : Option α := m id

def Mapping.insert {α : Type} (m : Mapping α) (id : Nat) (v : α) : Mapping α :=
  fun k => if k = id then some v else m k

def Mapping.remove {α : Type} (m : Mapping α) (id : Nat) : Mapping α :=
  fun k => if k = id then none else m k

def Mapping.contains {α : Type} (m : Mapping α) (id : Nat) : Bool :=
  (m id).isSome

def Mapping.empty {α : Type} : Mapping α := fun _ => none

structure Agenda where
  contatos : Mapping Contato
  compromissos : Mapping Compromisso
  next_contato_id : Nat
  next_compromisso_id : Nat

def Agenda.new : Agenda :=
  { contatos := Mapping.empty
    compromissos := Mapping.empty
    next_contato_id := 0
    next_compromisso_id := 0 }

/-- Numeric core of `validar_data` after the three tokens are parsed: the
zero/range checks, then the Rust `match mes` (whose literal patterns are
rendered as the equivalent disjoint equality tests). -/
def data_valida (dia mes ano : Nat) : Bool :=
  if dia = 0 ∨ mes = 0 ∨ ano = 0 ∨ mes > 12 ∨ dia > 31 then false
  else if mes = 4 ∨ mes = 6 ∨ mes = 9 ∨ mes = 11 then dia ≤ 30
  else if mes = 2 then
    if ano % 4 = 0 ∧ (ano % 100 ≠ 0 ∨ ano % 400 = 0) then dia ≤ 29
    else dia ≤ 28
  else dia ≤ 31

/-- `validar_data` after `data.split('/')`: exactly three parts, each parsed
with `parse().unwrap_or(0)`, then the numeric checks. -/
def validar_data_partes : List (List Char) → Bool
  | [p0, p1, p2] =>
    data_valida ((parseU32 p0).getD 0) ((parseU32 p1).getD 0) ((parseU32 p2).getD 0)
  | _ => false

def validar_data (data : List Char) : Bool :=
  validar_data_partes (splitChar '/' data)

/-- `validar_hora` after `hora.split(':')`: exactly two parts, each parsed
with `parse().unwrap_or(0)`; valid iff hour < 24 and minute < 60. -/
def validar_hora_partes : List (List Char) → Bool
  | [p0, p1] => (parseU32 p0).getD 0 < 24 ∧ (parseU32 p1).getD 0 < 60
  | _ => false

def validar_hora (hora : List Char) : Bool :=
  validar_hora_partes (splitChar ':' hora)

def criar_contato (s : Agenda) (nome telefone : List Char) (idade : Nat)
    (data_aniversario : List Char) (categoria : Categoria) :
    Option (Agenda × Except String Nat) :=
  if nome = [] then some (s, Except.error "Nome não pode estar vazio")
  else if telefone = [] then some (s, Except.error "Telefone não pode estar vazio")
  else if validar_data data_aniversario = false then
    some (s, Except.error "Data de aniversário inválida. O formato deve ser dd/mm/aaaa.")
  else
    let id := s.next_contato_id
    let contato : Contato :=
      { nome := nome, telefone := telefone, idade := idade,
        data_aniversario := data_aniversario, categoria := categoria }
    match checked_add s.next_contato_id 1 with
    | none => none
    | some next =>
      some ({ s with next_contato_id := next,
                     contatos := Mapping.insert s.contatos id contato },
            Except.ok id)

def ler_contato (s : Agenda) (id : Nat) : Option Contato :=
  Mapping.get s.contatos id

def atualizar_contato (s : Agenda) (id : Nat) (nome telefone : List Char) (idade : Nat)
    (data_aniversario : List Char) (categoria : Categoria) :
    Agenda × Except String Bool :=
  if nome = [] then (s, Except.error "Nome não pode estar vazio")
  else if telefone = [] then (s, Except.error "Telefone não pode estar vazio")
  else if validar_data data_aniversario = false then
    (s, Except.error "Data de aniversário inválida. O formato deve ser dd/mm/aaaa.")
  else
    match Mapping.get s.contatos id with
    | some contato =>
      let contato' :=
        { contato with nome := nome, telefone := telefone, idade := idade,
                       data_aniversario := data_aniversario, categoria := categoria }
      ({ s with contatos := Mapping.insert s.contatos id contato' }, Except.ok true)
    | none => (s, Except.error "Contato não encontrado")

def deletar_contato (s : Agenda) (id : Nat) : Agenda × Bool :=
  if Mapping.contains s.contatos id then
    ({ s with contatos := Mapping.remove s.contatos id }, true)
  else
    (s, false)

def listar_contatos (s : Agenda) : List Contato :=
  (List.range s.next_contato_id).foldl
    (fun lista id =>
      match Mapping.get s.contatos id with
      | some contato => lista ++ [contato]
      | none => lista)
    []

def criar_compromisso (s : Agenda) (titulo data hora : List Char)
    (prioridade : Prioridade) (duracao : Int) :
    Option (Agenda × Except String Nat) :=
  if titulo = [] then some (s, Except.error "Título não pode estar vazio")
  else if validar_data data = false then
    some (s, Except.error "Data inválida. O formato deve ser dd/mm/aaaa.")
  else if validar_hora hora = false then
    some (s, Except.error "Hora inválida. O formato deve ser hh:mm.")
  else
    let id := s.next_compromisso_id
    let compromisso : Compromisso :=
      { titulo := titulo, data := data, hora := hora,
        prioridade := prioridade, duracao := duracao }
    match checked_add s.next_compromisso_id 1 with
    | none => none
    | some next =>
      some ({ s with next_compromisso_id := next,
                     compromissos := Mapping.insert s.compromissos id compromisso },
            Except.ok id)

def ler_compromisso (s : Agenda) (id : Nat) : Option Compromisso :=
  Mapping.get s.compromissos id

def atualizar_compromisso (s : Agenda) (id : Nat) (titulo data hora : List Char)
    (prioridade : Prioridade) (duracao : Int) :
    Agenda × Except String Bool :=
  if titulo = [] then (s, Except.error "Título não pode estar vazio")
  else if validar_data data = false then
    (s, Except.error "Data inválida. O formato deve ser dd/mm/aaaa.")
  else if validar_hora hora = false then
    (s, Except.error "Hora inválida. O formato deve ser hh:mm.")
  else
    match Mapping.get s.compromissos id with
    | some compromisso =>
      let compromisso' :=
        { compromisso with titulo := titulo, data := data, hora := hora,
                           prioridade := prioridade, duracao := duracao }
      ({ s with compromissos := Mapping.insert s.compromissos id compromisso' },
       Except.ok true)
    | none => (s, Except.error "Compromisso não encontrado")

def deletar_compromisso (s : Agenda) (id : Nat) : Agenda × Bool :=
  if Mapping.contains s.compromissos id then
    ({ s with compromissos := Mapping.remove s.compromissos id }, true)
  else
    (s, false)

def listar_compromissos (s : Agenda) : List Compromisso :=
  (List.range s.next_compromisso_id).foldl
    (fun lista id =>
      match Mapping.get s.compromissos id with
      | some compromisso => lista ++ [compromisso]
      | none => lista)
    []

/-- One mutating call on the `Agenda` facade (the read-only messages take
`&self` in the source and cannot change state, so they are omitted from the
trace alphabet). -/
inductive Op where
  | criarContato (nome telefone : List Char) (idade : Nat)
      (data : List Char) (cat : Categoria)
  | atualizarContato (id : Nat) (nome telefone : List Char) (idade : Nat)
      (data : List Char) (cat : Categoria)
  | deletarContato (id : Nat)
  | criarCompromisso (titulo data hora : List Char)
      (pri : Prioridade) (dur : Int)
  | atualizarCompromisso (id : Nat) (titulo data hora : List Char)
      (pri : Prioridade) (dur : Int)
  | deletarCompromisso (id : Nat)

/-- Executes one call; returns the new state and the list of contact
identifiers issued by the call (a singleton for a successful
`criar_contato`, `[]` otherwise); `none` if the call panicked. -/
def Op.step (s : Agenda) : Op → Option (Agenda × List Nat)
  | criarContato n t i d c =>
    match criar_contato s n t i d c with
    | none => none
    | some (s', Except.ok id) => some (s', [id])
    | some (s', Except.error _) => some (s', [])
  | atualizarContato id n t i d c => some ((atualizar_contato s id n t i d c).1, [])
  | deletarContato id => some ((deletar_contato s id).1, [])
  | criarCompromisso ti d h p du =>
    match criar_compromisso s ti d h p du with
    | none => none
    | some (s', _) => some (s', [])
  | atualizarCompromisso id ti d h p du =>
    some ((atualizar_compromisso s id ti d h p du).1, [])
  | deletarCompromisso id => some ((deletar_compromisso s id).1, [])

/-- Executes a sequence of calls, accumulating the issued contact
identifiers in order; `none` if any call panicked. -/
def run (s : Agenda) : List Op → Option (Agenda × List Nat)
  | [] => some (s, [])
  | op :: ops =>
    match Op.step s op with
    | none => none
    | some (s', ids) =>
      match run s' ops with
      | none => none
      | some (s'', ids') => some (s'', ids ++ ids')

/-- Like `Op.step`, but returns the identifiers issued by the call for
both entity kinds: the pair holds the contact identifiers and the
appointment identifiers (each a singleton on a successful creation of that
kind, `[]` otherwise); `none` if the call panicked. -/
def Op.stepIds (s : Agenda) : Op → Option (Agenda × (List Nat × List Nat))
  | criarContato n t i d c =>
    match criar_contato s n t i d c with
    | none => none
    | some (s', Except.ok id) => some (s', ([id], []))
    | some (s', Except.error _) => some (s', ([], []))
  | atualizarContato id n t i d c =>
    some ((atualizar_contato s id n t i d c).1, ([], []))
  | deletarContato id => some ((deletar_contato s id).1, ([], []))
  | criarCompromisso ti d h p du =>
    match criar_compromisso s ti d h p du with
    | none => none
    | some (s', Except.ok id) => some (s', ([], [id]))
    | some (s', Except.error _) => some (s', ([], []))
  | atualizarCompromisso id ti d h p du =>
    some ((atualizar_compromisso s id ti d h p du).1, ([], []))
  | deletarCompromisso id => some ((deletar_compromisso s id).1, ([], []))

/-- Executes a sequence of calls, accumulating the issued contact and
appointment identifiers, each in order; `none` if any call panicked. -/
def runIds (s : Agenda) : List Op → Option (Agenda × (List Nat × List Nat))
  | [] => some (s, ([], []))
  | op :: ops =>
    match Op.stepIds s op with
    | none => none
    | some (s', ids) =>
      match runIds s' ops with
      | none => none
      | some (s'', ids') => some (s'', (ids.1 ++ ids'.1, ids.2 ++ ids'.2))

/-! ## Helper lemmas -/

theorem validar_data_partes_nil : validar_data_partes [] = false := rfl

theorem validar_data_partes_um (p0 : List Char) : validar_data_partes [p0] = false := rfl

theorem validar_data_partes_dois (p0 p1 : List Char) :
    validar_data_partes [p0, p1] = false := rfl

theorem validar_data_partes_tres (p0 p1 p2 : List Char) :
    validar_data_partes [p0, p1, p2] =
      data_valida ((parseU32 p0).getD 0) ((parseU32 p1).getD 0) ((parseU32 p2).getD 0) := rfl

theorem validar_data_partes_quatro (p0 p1 p2 p3 : List Char) (r : List (List Char)) :
    validar_data_partes (p0 :: p1 :: p2 :: p3 :: r) = false := rfl

theorem validar_hora_partes_nil : validar_hora_partes [] = false := rfl

theorem validar_hora_partes_um (p0 : List Char) : validar_hora_partes [p0] = false := rfl

theorem validar_hora_partes_dois (p0 p1 : List Char) :
    validar_hora_partes [p0, p1] =
      decide ((parseU32 p0).getD 0 < 24 ∧ (parseU32 p1).getD 0 < 60) := rfl

theorem validar_hora_partes_tres (p0 p1 p2 : List Char) (r : List (List Char)) :
    validar_hora_partes (p0 :: p1 :: p2 :: r) = false := rfl

theorem data_valida_zero (dia mes ano : Nat) (h : dia = 0 ∨ mes = 0 ∨ ano = 0) :
    data_valida dia mes ano = false := by
  unfold data_valida
  rw [if_pos]
  tauto

/-! ## Claim theorems for the validators -/

/-- C3: for every input string, if splitting on `/` does not produce exactly
three tokens each of which parses as a non-negative number, then
`validar_data` returns `false`. -/
theorem validar_data_rejeita_nao_numericos (s : List Char)
    (h : ¬ ((splitChar '/' s).length = 3 ∧
            ∀ t ∈ splitChar '/' s, (parseU32 t).isSome = true)) :
    validar_data s = false := by
  unfold validar_data
  rcases hl : splitChar '/' s with _ | ⟨p0, _ | ⟨p1, _ | ⟨p2, _ | ⟨p3, r⟩⟩⟩⟩
  · exact validar_data_partes_nil
  · exact validar_data_partes_um p0
  · exact validar_data_partes_dois p0 p1
  · rw [validar_data_partes_tres]
    rw [hl] at h
    rcases hp0 : parseU32 p0 with _ | v0
    · exact data_valida_zero _ _ _ (Or.inl rfl)
    rcases hp1 : parseU32 p1 with _ | v1
    · exact data_valida_zero _ _ _ (Or.inr (Or.inl rfl))
    rcases hp2 : parseU32 p2 with _ | v2
    · exact data_valida_zero _ _ _ (Or.inr (Or.inr rfl))
    exact absurd ⟨rfl, by intro t ht; fin_cases ht <;> simp [hp0, hp1, hp2]⟩ h
  · exact validar_data_partes_quatro p0 p1 p2 p3 r

/-- C3 witness: a string with only two slash-separated tokens is rejected. -/
theorem validar_data_rejeita_nao_numericos_witness :
    validar_data "12/2024".toList = false :=
  validar_data_rejeita_nao_numericos "12/2024".toList (by decide)

/-- C4: the five concrete date vectors, and the characterisation of the
February day rule: day 29 is allowed exactly in years divisible by 4 and
(not divisible by 100 or divisible by 400). -/
theorem validar_data_vetores_e_fevereiro :
    validar_data "29/02/2024".toList = true ∧
    validar_data "29/02/2023".toList = false ∧
    validar_data "31/04/2025".toList = false ∧
    validar_data "00/01/2025".toList = false ∧
    validar_data "15/13/2025".toList = false ∧
    ∀ dia ano : Nat,
      (data_valida dia 2 ano = true ↔
        1 ≤ dia ∧ 1 ≤ ano ∧
          (dia ≤ 28 ∨ (dia = 29 ∧ ano % 4 = 0 ∧ (ano % 100 ≠ 0 ∨ ano % 400 = 0)))) := by
  refine ⟨by decide, by decide, by decide, by decide, by decide, ?_⟩
  intro dia ano
  unfold data_valida
  split_ifs with h0 h1 h2 h3 <;> simp_all <;> omega

/-- C5: `validar_hora` accepts exactly the strings splitting on `:` into two
tokens whose permissive parses give hour < 24 and minute < 60, together with
the three concrete vectors. -/
theorem validar_hora_especificacao :
    (∀ s : List Char,
      validar_hora s = true ↔
        ∃ p0 p1, splitChar ':' s = [p0, p1] ∧
          (parseU32 p0).getD 0 < 24 ∧ (parseU32 p1).getD 0 < 60) ∧
    validar_hora "23:59".toList = true ∧
    validar_hora "24:00".toList = false ∧
    validar_hora "12:60".toList = false := by
  refine ⟨?_, by decide, by decide, by decide⟩
  intro s
  unfold validar_hora
  rcases hl : splitChar ':' s with _ | ⟨p0, _ | ⟨p1, _ | ⟨p2, r⟩⟩⟩
  · rw [validar_hora_partes_nil]; simp [hl]
  · rw [validar_hora_partes_um]; simp [hl]
  · rw [validar_hora_partes_dois]
    simp only [hl, decide_eq_true_eq]
    constructor
    · intro hv
      exact ⟨p0, p1, rfl, hv⟩
    · rintro ⟨q0, q1, hq, hv⟩
      obtain ⟨rfl, rfl⟩ : p0 = q0 ∧ p1 = q1 := by simpa using hq
      exact hv
  · rw [validar_hora_partes_tres]; simp [hl]

theorem criar_contato_sucesso (s : Agenda) (nome telefone : List Char) (idade : Nat)
    (data : List Char) (cat : Categoria)
    (h1 : nome ≠ []) (h2 : telefone ≠ []) (h3 : validar_data data = true)
    (hctr : s.next_contato_id + 1 < 2 ^ 32) :
    criar_contato s nome telefone idade data cat =
      some ({ s with next_contato_id := s.next_contato_id + 1,
                     contatos := Mapping.insert s.contatos s.next_contato_id
                       ⟨nome, telefone, idade, data, cat⟩ },
            Except.ok s.next_contato_id) := by
  unfold criar_contato checked_add
  have hc : s.next_contato_id + 1 < 4294967296 := by norm_num at hctr ⊢; omega
  simp [h1, h2, h3, hc]

theorem criar_compromisso_sucesso (s : Agenda) (titulo data hora : List Char)
    (pri : Prioridade) (dur : Int)
    (h1 : titulo ≠ []) (h2 : validar_data data = true) (h3 : validar_hora hora = true)
    (hctr : s.next_compromisso_id + 1 < 2 ^ 32) :
    criar_compromisso s titulo data hora pri dur =
      some ({ s with next_compromisso_id := s.next_compromisso_id + 1,
                     compromissos := Mapping.insert s.compromissos s.next_compromisso_id
                       ⟨titulo, data, hora, pri, dur⟩ },
            Except.ok s.next_compromisso_id) := by
  unfold criar_compromisso checked_add
  have hc : s.next_compromisso_id + 1 < 4294967296 := by norm_num at hctr ⊢; omega
  simp [h1, h2, h3, hc]

/-! ## Claim theorems for creation, reading, deletion -/

/-- C1: with the counter below its bound, `criar_contato` succeeds on a
non-empty name, non-empty phone and valid birthdate, returning the current
counter value as identifier, and reading that identifier afterwards yields
exactly the stored fields; and it fails with a validation error, leaving
the state unchanged, if and only if the name is empty, the phone is empty,
or the birthdate is invalid. -/
theorem criar_contato_roundtrip (s : Agenda) (nome telefone : List Char) (idade : Nat)
    (data : List Char) (cat : Categoria)
    (hctr : s.next_contato_id + 1 < 2 ^ 32) :
    ((nome ≠ [] ∧ telefone ≠ [] ∧ validar_data data = true) →
      ∃ s', criar_contato s nome telefone idade data cat =
              some (s', Except.ok s.next_contato_id) ∧
            ler_contato s' s.next_contato_id =
              some ⟨nome, telefone, idade, data, cat⟩) ∧
    ((nome = [] ∨ telefone = [] ∨ validar_data data = false) ↔
      ∃ e, criar_contato s nome telefone idade data cat = some (s, Except.error e)) := by
  constructor
  · rintro ⟨h1, h2, h3⟩
    refine ⟨_, criar_contato_sucesso s nome telefone idade data cat h1 h2 h3 hctr, ?_⟩
    simp [ler_contato, Mapping.get, Mapping.insert]
  · constructor
    · intro h
      by_cases h1 : nome = []
      · exact ⟨"Nome não pode estar vazio", by simp [criar_contato, h1]⟩
      by_cases h2 : telefone = []
      · exact ⟨"Telefone não pode estar vazio", by simp [criar_contato, h1, h2]⟩
      have h3 : validar_data data = false := by
        rcases h with h | h | h <;> simp_all
      exact ⟨"Data de aniversário inválida. O formato deve ser dd/mm/aaaa.",
        by simp [criar_contato, h1, h2, h3]⟩
    · rintro ⟨e, he⟩
      by_contra hcon
      push_neg at hcon
      obtain ⟨h1, h2, h3⟩ := hcon
      have h3' : validar_data data = true := by
        cases hv : validar_data data
        · exact absurd hv h3
        · rfl
      rw [criar_contato_sucesso s nome telefone idade data cat h1 h2 h3' hctr] at he
      simp at he

/-- C1 witness: the round trip on a fresh store with
`("Ana", "555", 20, "01/01/2000", Amigo)` yields identifier 0. -/
theorem criar_contato_roundtrip_witness :
    ∃ s', criar_contato Agenda.new "Ana".toList "555".toList 20 "01/01/2000".toList
            Categoria.Amigo = some (s', Except.ok Agenda.new.next_contato_id) ∧
          ler_contato s' Agenda.new.next_contato_id =
            some ⟨"Ana".toList, "555".toList, 20, "01/01/2000".toList, Categoria.Amigo⟩ :=
  (criar_contato_roundtrip Agenda.new "Ana".toList "555".toList 20 "01/01/2000".toList
    Categoria.Amigo (by decide)).1 ⟨by decide, by decide, by decide⟩

theorem deletar_contato_ocupado (s : Agenda) (id : Nat)
    (h : Mapping.get s.contatos id ≠ none) :
    deletar_contato s id = ({ s with contatos := Mapping.remove s.contatos id }, true) := by
  unfold deletar_contato
  rw [if_pos]
  simp only [Mapping.contains]
  exact Option.isSome_iff_ne_none.mpr h

theorem deletar_contato_ausente (s : Agenda) (id : Nat)
    (h : Mapping.get s.contatos id = none) :
    deletar_contato s id = (s, false) := by
  unfold deletar_contato
  rw [if_neg]
  simp only [Mapping.contains]
  rw [Mapping.get] at h
  simp [h]

theorem deletar_contato_get_none (s : Agenda) (id : Nat) :
    Mapping.get ((deletar_contato s id).1).contatos id = none := by
  by_cases h : Mapping.get s.contatos id = none
  · rw [deletar_contato_ausente s id h]
    exact h
  · rw [deletar_contato_ocupado s id h]
    simp [Mapping.get, Mapping.remove]

theorem deletar_compromisso_ocupado (s : Agenda) (id : Nat)
    (h : Mapping.get s.compromissos id ≠ none) :
    deletar_compromisso s id =
      ({ s with compromissos := Mapping.remove s.compromissos id }, true) := by
  unfold deletar_compromisso
  rw [if_pos]
  simp only [Mapping.contains]
  exact Option.isSome_iff_ne_none.mpr h

theorem deletar_compromisso_ausente (s : Agenda) (id : Nat)
    (h : Mapping.get s.compromissos id = none) :
    deletar_compromisso s id = (s, false) := by
  unfold deletar_compromisso
  rw [if_neg]
  simp only [Mapping.contains]
  rw [Mapping.get] at h
  simp [h]

theorem deletar_compromisso_get_none (s : Agenda) (id : Nat) :
    Mapping.get ((deletar_compromisso s id).1).compromissos id = none := by
  by_cases h : Mapping.get s.compromissos id = none
  · rw [deletar_compromisso_ausente s id h]
    exact h
  · rw [deletar_compromisso_ocupado s id h]
    simp [Mapping.get, Mapping.remove]

/-- C8: deletion removes the record and returns `true` exactly when the
identifier is occupied, is a no-op returning `false` otherwise, and a
second deletion of the same identifier always returns `false` (both for
contacts and appointments). -/
theorem deletar_semantica (s : Agenda) (id : Nat) :
    (Mapping.get s.contatos id ≠ none →
      deletar_contato s id =
        ({ s with contatos := Mapping.remove s.contatos id }, true)) ∧
    (Mapping.get s.contatos id = none → deletar_contato s id = (s, false)) ∧
    (deletar_contato (deletar_contato s id).1 id).2 = false ∧
    (Mapping.get s.compromissos id ≠ none →
      deletar_compromisso s id =
        ({ s with compromissos := Mapping.remove s.compromissos id }, true)) ∧
    (Mapping.get s.compromissos id = none → deletar_compromisso s id = (s, false)) ∧
    (deletar_compromisso (deletar_compromisso s id).1 id).2 = false := by
  refine ⟨deletar_contato_ocupado s id, deletar_contato_ausente s id, ?_,
    deletar_compromisso_ocupado s id, deletar_compromisso_ausente s id, ?_⟩
  · rw [deletar_contato_ausente _ id (deletar_contato_get_none s id)]
  · rw [deletar_compromisso_ausente _ id (deletar_compromisso_get_none s id)]

/-- C8 witness: deleting contact 0 from a one-contact store succeeds and is
a removal; a second delete of the same identifier returns `false`. -/
theorem deletar_semantica_witness :
    deletar_contato
        { Agenda.new with
          contatos := Mapping.insert Mapping.empty 0 ⟨"A".toList, "1".toList, 1, "x".toList,
            Categoria.Colega⟩,
          next_contato_id := 1 } 0 =
      ({ Agenda.new with
         contatos := Mapping.remove (Mapping.insert Mapping.empty 0
           ⟨"A".toList, "1".toList, 1, "x".toList, Categoria.Colega⟩) 0,
         next_contato_id := 1 }, true) ∧
    (deletar_contato
      (deletar_contato
        { Agenda.new with
          contatos := Mapping.insert Mapping.empty 0 ⟨"A".toList, "1".toList, 1, "x".toList,
            Categoria.Colega⟩,
          next_contato_id := 1 } 0).1 0).2 = false := by
  constructor
  · exact (deletar_semantica _ 0).1 (by simp [Mapping.get, Mapping.insert])
  · exact (deletar_semantica _ 0).2.2.1

/-- C10: the update operations never return `Ok(false)`: an `Ok` result
always carries `true`, a missing identifier being reported as an error. -/
theorem atualizar_nunca_ok_false (s : Agenda) (id : Nat)
    (nome telefone : List Char) (idade : Nat) (data : List Char) (cat : Categoria)
    (titulo dataC hora : List Char) (pri : Prioridade) (dur : Int) (b b' : Bool) :
    ((atualizar_contato s id nome telefone idade data cat).2 = Except.ok b → b = true) ∧
    ((atualizar_compromisso s id titulo dataC hora pri dur).2 = Except.ok b' → b' = true) := by
  constructor
  · intro h
    unfold atualizar_contato at h
    split_ifs at h
    all_goals try simp_all
    revert h
    cases Mapping.get s.contatos id
    · simp
    · simp
  · intro h
    unfold atualizar_compromisso at h
    split_ifs at h
    all_goals try simp_all
    revert h
    cases Mapping.get s.compromissos id
    · simp
    · simp

/-- C6: the update operations re-run the creation validations; on a
validation failure or a missing identifier they return an error carrying
the unchanged state (both collections, both counters), and otherwise they
replace every field of the record under the same identifier and return
success. -/
theorem atualizar_validacao_e_substituicao (s : Agenda) (id : Nat) :
    (∀ (nome telefone : List Char) (idade : Nat) (data : List Char) (cat : Categoria),
      (nome = [] ∨ telefone = [] ∨ validar_data data = false ∨
          Mapping.get s.contatos id = none) →
        ∃ e, atualizar_contato s id nome telefone idade data cat = (s, Except.error e)) ∧
    (∀ (nome telefone : List Char) (idade : Nat) (data : List Char) (cat : Categoria),
      nome ≠ [] → telefone ≠ [] → validar_data data = true →
      Mapping.get s.contatos id ≠ none →
        atualizar_contato s id nome telefone idade data cat =
          ({ s with contatos :=
              Mapping.insert s.contatos id ⟨nome, telefone, idade, data, cat⟩ },
           Except.ok true)) ∧
    (∀ (titulo data hora : List Char) (pri : Prioridade) (dur : Int),
      (titulo = [] ∨ validar_data data = false ∨ validar_hora hora = false ∨
          Mapping.get s.compromissos id = none) →
        ∃ e, atualizar_compromisso s id titulo data hora pri dur = (s, Except.error e)) ∧
    (∀ (titulo data hora : List Char) (pri : Prioridade) (dur : Int),
      titulo ≠ [] → validar_data data = true → validar_hora hora = true →
      Mapping.get s.compromissos id ≠ none →
        atualizar_compromisso s id titulo data hora pri dur =
          ({ s with compromissos :=
              Mapping.insert s.compromissos id ⟨titulo, data, hora, pri, dur⟩ },
           Except.ok true)) := by
  refine ⟨?_, ?_, ?_, ?_⟩
  · intro nome telefone idade data cat h
    by_cases h1 : nome = []
    · exact ⟨"Nome não pode estar vazio", by simp [atualizar_contato, h1]⟩
    by_cases h2 : telefone = []
    · exact ⟨"Telefone não pode estar vazio", by simp [atualizar_contato, h1, h2]⟩
    by_cases h3 : validar_data data = false
    · exact ⟨"Data de aniversário inválida. O formato deve ser dd/mm/aaaa.",
        by simp [atualizar_contato, h1, h2, h3]⟩
    have h4 : Mapping.get s.contatos id = none := by tauto
    refine ⟨"Contato não encontrado", ?_⟩
    unfold atualizar_contato
    rw [if_neg h1, if_neg h2, if_neg h3, h4]
  · intro nome telefone idade data cat h1 h2 h3 h4
    obtain ⟨c, hc⟩ := Option.ne_none_iff_exists'.mp h4
    unfold atualizar_contato
    rw [if_neg h1, if_neg h2, if_neg (by simp [h3]), hc]
  · intro titulo data hora pri dur h
    by_cases h1 : titulo = []
    · exact ⟨"Título não pode estar vazio", by simp [atualizar_compromisso, h1]⟩
    by_cases h2 : validar_data data = false
    · exact ⟨"Data inválida. O formato deve ser dd/mm/aaaa.",
        by simp [atualizar_compromisso, h1, h2]⟩
    by_cases h3 : validar_hora hora = false
    · exact ⟨"Hora inválida. O formato deve ser hh:mm.",
        by simp [atualizar_compromisso, h1, h2, h3]⟩
    have h4 : Mapping.get s.compromissos id = none := by tauto
    refine ⟨"Compromisso não encontrado", ?_⟩
    unfold atualizar_compromisso
    rw [if_neg h1, if_neg h2, if_neg h3, h4]
  · intro titulo data hora pri dur h1 h2 h3 h4
    obtain ⟨c, hc⟩ := Option.ne_none_iff_exists'.mp h4
    unfold atualizar_compromisso
    rw [if_neg h1, if_neg (by simp [h2]), if_neg (by simp [h3]), hc]

/-- C6 witness: updating contact 0 of a one-contact store with valid fields
replaces every field and returns success. -/
theorem atualizar_validacao_e_substituicao_witness :
    atualizar_contato
        { Agenda.new with
          contatos := Mapping.insert Mapping.empty 0
            ⟨"Ana".toList, "555".toList, 20, "01/01/2000".toList, Categoria.Amigo⟩,
          next_contato_id := 1 } 0
        "Bia".toList "222".toList 31 "02/02/2001".toList Categoria.Familiar =
      ({ { Agenda.new with
           contatos := Mapping.insert Mapping.empty 0
             ⟨"Ana".toList, "555".toList, 20, "01/01/2000".toList, Categoria.Amigo⟩,
           next_contato_id := 1 } with
         contatos := Mapping.insert
           (Mapping.insert Mapping.empty 0
             ⟨"Ana".toList, "555".toList, 20, "01/01/2000".toList, Categoria.Amigo⟩) 0
           ⟨"Bia".toList, "222".toList, 31, "02/02/2001".toList, Categoria.Familiar⟩ },
       Except.ok true) :=
  (atualizar_validacao_e_substituicao
      { Agenda.new with
        contatos := Mapping.insert Mapping.empty 0
          ⟨"Ana".toList, "555".toList, 20, "01/01/2000".toList, Categoria.Amigo⟩,
        next_contato_id := 1 } 0).2.1
    "Bia".toList "222".toList 31 "02/02/2001".toList Categoria.Familiar
    (by decide) (by decide) (by decide) (by decide)

/-- C9: with validations passing, creation aborts (the model's `none`,
the Rust panic) exactly when the identifier counter sits at the top of the
u32 range; below that bound the abort branch is unreachable and creation
completes (returns `some`). -/
theorem criar_overflow_aborta (s : Agenda) (nome telefone : List Char) (idade : Nat)
    (data : List Char) (cat : Categoria) (titulo dataC hora : List Char)
    (pri : Prioridade) (dur : Int)
    (hs : s.next_contato_id < 2 ^ 32) (hs' : s.next_compromisso_id < 2 ^ 32) :
    (nome ≠ [] → telefone ≠ [] → validar_data data = true →
      (criar_contato s nome telefone idade data cat = none ↔
        s.next_contato_id = 2 ^ 32 - 1)) ∧
    (s.next_contato_id + 1 < 2 ^ 32 →
      criar_contato s nome telefone idade data cat ≠ none) ∧
    (titulo ≠ [] → validar_data dataC = true → validar_hora hora = true →
      (criar_compromisso s titulo dataC hora pri dur = none ↔
        s.next_compromisso_id = 2 ^ 32 - 1)) ∧
    (s.next_compromisso_id + 1 < 2 ^ 32 →
      criar_compromisso s titulo dataC hora pri dur ≠ none) := by
  refine ⟨?_, ?_, ?_, ?_⟩
  · intro h1 h2 h3
    constructor
    · intro h
      by_contra hne
      have hb : s.next_contato_id + 1 < 2 ^ 32 := by omega
      rw [criar_contato_sucesso s nome telefone idade data cat h1 h2 h3 hb] at h
      cases h
    · intro h
      unfold criar_contato checked_add
      rw [if_neg h1, if_neg h2, if_neg (by simp [h3]), if_neg (by omega)]
  · intro hb
    unfold criar_contato checked_add
    split_ifs <;> simp_all
  · intro h1 h2 h3
    constructor
    · intro h
      by_contra hne
      have hb : s.next_compromisso_id + 1 < 2 ^ 32 := by omega
      rw [criar_compromisso_sucesso s titulo dataC hora pri dur h1 h2 h3 hb] at h
      cases h
    · intro h
      unfold criar_compromisso checked_add
      rw [if_neg h1, if_neg (by simp [h2]), if_neg (by simp [h3]), if_neg (by omega)]
  · intro hb
    unfold criar_compromisso checked_add
    split_ifs <;> simp_all

/-- C9 witness: at a counter of 2^32 - 1 a valid creation aborts; on a
fresh store it does not abort. -/
theorem criar_overflow_aborta_witness :
    criar_contato { Agenda.new with next_contato_id := 2 ^ 32 - 1 }
        "Ana".toList "555".toList 20 "01/01/2000".toList Categoria.Amigo = none ∧
    criar_contato Agenda.new
        "Ana".toList "555".toList 20 "01/01/2000".toList Categoria.Amigo ≠ none :=
  ⟨((criar_overflow_aborta { Agenda.new with next_contato_id := 2 ^ 32 - 1 }
      "Ana".toList "555".toList 20 "01/01/2000".toList Categoria.Amigo
      "x".toList "y".toList "z".toList Prioridade.Baixa 0
      (by decide) (by decide)).1 (by decide) (by decide) (by decide)).mpr rfl,
   (criar_overflow_aborta Agenda.new
      "Ana".toList "555".toList 20 "01/01/2000".toList Categoria.Amigo
      "x".toList "y".toList "z".toList Prioridade.Baixa 0
      (by decide) (by decide)).2.1 (by decide)⟩

/-- C10 witness: a well-formed update of an existing contact returns
`Ok(true)`. -/
theorem atualizar_nunca_ok_false_witness :
    (atualizar_contato
        { Agenda.new with
          contatos := Mapping.insert Mapping.empty 0
            ⟨"Ana".toList, "555".toList, 20, "01/01/2000".toList, Categoria.Amigo⟩,
          next_contato_id := 1 } 0
        "Bia".toList "222".toList 31 "02/02/2001".toList Categoria.Familiar).2 =
      Except.ok true ∧
    (true : Bool) = true :=
  ⟨by rfl,
   (atualizar_nunca_ok_false
      { Agenda.new with
        contatos := Mapping.insert Mapping.empty 0
          ⟨"Ana".toList, "555".toList, 20, "01/01/2000".toList, Categoria.Amigo⟩,
        next_contato_id := 1 } 0
      "Bia".toList "222".toList 31 "02/02/2001".toList Categoria.Familiar
      "x".toList "y".toList "z".toList Prioridade.Baixa 0 true true).1 (by rfl)⟩

theorem criar_contato_resultado (s : Agenda) (nome telefone : List Char) (idade : Nat)
    (data : List Char) (cat : Categoria) (s' : Agenda) (r : Except String Nat)
    (h : criar_contato s nome telefone idade data cat = some (s', r)) :
    (r = Except.ok s.next_contato_id ∧ s'.next_contato_id = s.next_contato_id + 1) ∨
    ((∃ e, r = Except.error e) ∧ s' = s) := by
  unfold criar_contato checked_add at h
  split_ifs at h with h1 h2 h3 h4
  · simp only [Option.some.injEq, Prod.mk.injEq] at h
    exact Or.inr ⟨⟨_, h.2.symm⟩, h.1.symm⟩
  · simp only [Option.some.injEq, Prod.mk.injEq] at h
    exact Or.inr ⟨⟨_, h.2.symm⟩, h.1.symm⟩
  · simp only [Option.some.injEq, Prod.mk.injEq] at h
    exact Or.inr ⟨⟨_, h.2.symm⟩, h.1.symm⟩
  · simp only [Option.some.injEq, Prod.mk.injEq] at h
    obtain ⟨hs, hr⟩ := h
    exact Or.inl ⟨hr.symm, by rw [← hs]⟩

theorem criar_compromisso_resultado (s : Agenda) (titulo data hora : List Char)
    (pri : Prioridade) (dur : Int) (s' : Agenda) (r : Except String Nat)
    (h : criar_compromisso s titulo data hora pri dur = some (s', r)) :
    s'.next_contato_id = s.next_contato_id := by
  unfold criar_compromisso checked_add at h
  split_ifs at h with h1 h2 h3 h4
  · simp only [Option.some.injEq, Prod.mk.injEq] at h
    rw [← h.1]
  · simp only [Option.some.injEq, Prod.mk.injEq] at h
    rw [← h.1]
  · simp only [Option.some.injEq, Prod.mk.injEq] at h
    rw [← h.1]
  · simp only [Option.some.injEq, Prod.mk.injEq] at h
    rw [← h.1]

theorem atualizar_contato_next (s : Agenda) (id : Nat) (n t : List Char) (i : Nat)
    (d : List Char) (c : Categoria) :
    ((atualizar_contato s id n t i d c).1).next_contato_id = s.next_contato_id := by
  unfold atualizar_contato
  split_ifs
  · rfl
  · rfl
  · rfl
  · cases Mapping.get s.contatos id
    · rfl
    · rfl

theorem deletar_contato_next (s : Agenda) (id : Nat) :
    ((deletar_contato s id).1).next_contato_id = s.next_contato_id := by
  unfold deletar_contato
  split_ifs
  · rfl
  · rfl

theorem atualizar_compromisso_next (s : Agenda) (id : Nat) (ti d h : List Char)
    (p : Prioridade) (du : Int) :
    ((atualizar_compromisso s id ti d h p du).1).next_contato_id = s.next_contato_id := by
  unfold atualizar_compromisso
  split_ifs
  · rfl
  · rfl
  · rfl
  · cases Mapping.get s.compromissos id
    · rfl
    · rfl

theorem deletar_compromisso_next (s : Agenda) (id : Nat) :
    ((deletar_compromisso s id).1).next_contato_id = s.next_contato_id := by
  unfold deletar_compromisso
  split_ifs
  · rfl
  · rfl

theorem criar_contato_next_compromisso (s : Agenda) (nome telefone : List Char)
    (idade : Nat) (data : List Char) (cat : Categoria) (s' : Agenda)
    (r : Except String Nat)
    (h : criar_contato s nome telefone idade data cat = some (s', r)) :
    s'.next_compromisso_id = s.next_compromisso_id := by
  unfold criar_contato checked_add at h
  split_ifs at h with h1 h2 h3 h4
  · simp only [Option.some.injEq, Prod.mk.injEq] at h
    rw [← h.1]
  · simp only [Option.some.injEq, Prod.mk.injEq] at h
    rw [← h.1]
  · simp only [Option.some.injEq, Prod.mk.injEq] at h
    rw [← h.1]
  · simp only [Option.some.injEq, Prod.mk.injEq] at h
    rw [← h.1]

theorem criar_compromisso_resultado_ids (s : Agenda) (titulo data hora : List Char)
    (pri : Prioridade) (dur : Int) (s' : Agenda) (r : Except String Nat)
    (h : criar_compromisso s titulo data hora pri dur = some (s', r)) :
    (r = Except.ok s.next_compromisso_id ∧
      s'.next_compromisso_id = s.next_compromisso_id + 1) ∨
    ((∃ e, r = Except.error e) ∧ s' = s) := by
  unfold criar_compromisso checked_add at h
  split_ifs at h with h1 h2 h3 h4
  · simp only [Option.some.injEq, Prod.mk.injEq] at h
    exact Or.inr ⟨⟨_, h.2.symm⟩, h.1.symm⟩
  · simp only [Option.some.injEq, Prod.mk.injEq] at h
    exact Or.inr ⟨⟨_, h.2.symm⟩, h.1.symm⟩
  · simp only [Option.some.injEq, Prod.mk.injEq] at h
    exact Or.inr ⟨⟨_, h.2.symm⟩, h.1.symm⟩
  · simp only [Option.some.injEq, Prod.mk.injEq] at h
    obtain ⟨hs, hr⟩ := h
    exact Or.inl ⟨hr.symm, by rw [← hs]⟩

theorem atualizar_contato_next_compromisso (s : Agenda) (id : Nat) (n t : List Char)
    (i : Nat) (d : List Char) (c : Categoria) :
    ((atualizar_contato s id n t i d c).1).next_compromisso_id =
      s.next_compromisso_id := by
  unfold atualizar_contato
  split_ifs
  · rfl
  · rfl
  · rfl
  · cases Mapping.get s.contatos id
    · rfl
    · rfl

theorem deletar_contato_next_compromisso (s : Agenda) (id : Nat) :
    ((deletar_contato s id).1).next_compromisso_id = s.next_compromisso_id := by
  unfold deletar_contato
  split_ifs
  · rfl
  · rfl

theorem atualizar_compromisso_next_compromisso (s : Agenda) (id : Nat)
    (ti d h : List Char) (p : Prioridade) (du : Int) :
    ((atualizar_compromisso s id ti d h p du).1).next_compromisso_id =
      s.next_compromisso_id := by
  unfold atualizar_compromisso
  split_ifs
  · rfl
  · rfl
  · rfl
  · cases Mapping.get s.compromissos id
    · rfl
    · rfl

theorem deletar_compromisso_next_compromisso (s : Agenda) (id : Nat) :
    ((deletar_compromisso s id).1).next_compromisso_id = s.next_compromisso_id := by
  unfold deletar_compromisso
  split_ifs
  · rfl
  · rfl

theorem stepIds_spec (s : Agenda) (op : Op) (s' : Agenda) (cds ads : List Nat)
    (h : Op.stepIds s op = some (s', (cds, ads))) :
    ((cds = [s.next_contato_id] ∧ s'.next_contato_id = s.next_contato_id + 1) ∨
      (cds = [] ∧ s'.next_contato_id = s.next_contato_id)) ∧
    ((ads = [s.next_compromisso_id] ∧
        s'.next_compromisso_id = s.next_compromisso_id + 1) ∨
      (ads = [] ∧ s'.next_compromisso_id = s.next_compromisso_id)) := by
  cases op with
  | criarContato n t i d c =>
    have h' : (match criar_contato s n t i d c with
        | none => none
        | some (s₁, Except.ok id) => some (s₁, ([id], ([] : List Nat)))
        | some (s₁, Except.error _) => some (s₁, (([] : List Nat), ([] : List Nat)))) =
        some (s', (cds, ads)) := h
    cases hc : criar_contato s n t i d c with
    | none => rw [hc] at h'; exact Option.noConfusion h'
    | some p =>
      obtain ⟨s₁, r⟩ := p
      rw [hc] at h'
      rcases criar_contato_resultado s n t i d c s₁ r hc with ⟨hr, hn⟩ | ⟨⟨e, hr⟩, rfl⟩
      · subst hr
        have h2 : some (s₁, ([s.next_contato_id], ([] : List Nat))) =
            some (s', (cds, ads)) := h'
        simp only [Option.some.injEq, Prod.mk.injEq] at h2
        obtain ⟨rfl, rfl, rfl⟩ := h2
        exact ⟨Or.inl ⟨rfl, hn⟩,
          Or.inr ⟨rfl, criar_contato_next_compromisso s n t i d c _ _ hc⟩⟩
      · subst hr
        have h2 : some (s₁, (([] : List Nat), ([] : List Nat))) =
            some (s', (cds, ads)) := h'
        simp only [Option.some.injEq, Prod.mk.injEq] at h2
        obtain ⟨rfl, rfl, rfl⟩ := h2
        exact ⟨Or.inr ⟨rfl, rfl⟩, Or.inr ⟨rfl, rfl⟩⟩
  | atualizarContato id n t i d c =>
    have h' : some ((atualizar_contato s id n t i d c).1,
        (([] : List Nat), ([] : List Nat))) = some (s', (cds, ads)) := h
    simp only [Option.some.injEq, Prod.mk.injEq] at h'
    obtain ⟨rfl, rfl, rfl⟩ := h'
    exact ⟨Or.inr ⟨rfl, atualizar_contato_next s id n t i d c⟩,
      Or.inr ⟨rfl, atualizar_contato_next_compromisso s id n t i d c⟩⟩
  | deletarContato id =>
    have h' : some ((deletar_contato s id).1, (([] : List Nat), ([] : List Nat))) =
        some (s', (cds, ads)) := h
    simp only [Option.some.injEq, Prod.mk.injEq] at h'
    obtain ⟨rfl, rfl, rfl⟩ := h'
    exact ⟨Or.inr ⟨rfl, deletar_contato_next s id⟩,
      Or.inr ⟨rfl, deletar_contato_next_compromisso s id⟩⟩
  | criarCompromisso ti d hr p du =>
    have h' : (match criar_compromisso s ti d hr p du with
        | none => none
        | some (s₁, Except.ok id) => some (s₁, (([] : List Nat), [id]))
        | some (s₁, Except.error _) => some (s₁, (([] : List Nat), ([] : List Nat)))) =
        some (s', (cds, ads)) := h
    cases hc : criar_compromisso s ti d hr p du with
    | none => rw [hc] at h'; exact Option.noConfusion h'
    | some p' =>
      obtain ⟨s₁, r⟩ := p'
      rw [hc] at h'
      rcases criar_compromisso_resultado_ids s ti d hr p du s₁ r hc with
        ⟨hre, hn⟩ | ⟨⟨e, hre⟩, rfl⟩
      · subst hre
        have h2 : some (s₁, (([] : List Nat), [s.next_compromisso_id])) =
            some (s', (cds, ads)) := h'
        simp only [Option.some.injEq, Prod.mk.injEq] at h2
        obtain ⟨rfl, rfl, rfl⟩ := h2
        exact ⟨Or.inr ⟨rfl, criar_compromisso_resultado s ti d hr p du _ _ hc⟩,
          Or.inl ⟨rfl, hn⟩⟩
      · subst hre
        have h2 : some (s₁, (([] : List Nat), ([] : List Nat))) =
            some (s', (cds, ads)) := h'
        simp only [Option.some.injEq, Prod.mk.injEq] at h2
        obtain ⟨rfl, rfl, rfl⟩ := h2
        exact ⟨Or.inr ⟨rfl, rfl⟩, Or.inr ⟨rfl, rfl⟩⟩
  | atualizarCompromisso id ti d hr p du =>
    have h' : some ((atualizar_compromisso s id ti d hr p du).1,
        (([] : List Nat), ([] : List Nat))) = some (s', (cds, ads)) := h
    simp only [Option.some.injEq, Prod.mk.injEq] at h'
    obtain ⟨rfl, rfl, rfl⟩ := h'
    exact ⟨Or.inr ⟨rfl, atualizar_compromisso_next s id ti d hr p du⟩,
      Or.inr ⟨rfl, atualizar_compromisso_next_compromisso s id ti d hr p du⟩⟩
  | deletarCompromisso id =>
    have h' : some ((deletar_compromisso s id).1, (([] : List Nat), ([] : List Nat))) =
        some (s', (cds, ads)) := h
    simp only [Option.some.injEq, Prod.mk.injEq] at h'
    obtain ⟨rfl, rfl, rfl⟩ := h'
    exact ⟨Or.inr ⟨rfl, deletar_compromisso_next s id⟩,
      Or.inr ⟨rfl, deletar_compromisso_next_compromisso s id⟩⟩

theorem runIds_spec (ops : List Op) : ∀ (s s' : Agenda) (cds ads : List Nat),
    runIds s ops = some (s', (cds, ads)) →
    (cds = List.range' s.next_contato_id cds.length ∧
      s'.next_contato_id = s.next_contato_id + cds.length) ∧
    (ads = List.range' s.next_compromisso_id ads.length ∧
      s'.next_compromisso_id = s.next_compromisso_id + ads.length) := by
  induction ops with
  | nil =>
    intro s s' cds ads h
    have h' : some (s, (([] : List Nat), ([] : List Nat))) = some (s', (cds, ads)) := h
    simp only [Option.some.injEq, Prod.mk.injEq] at h'
    obtain ⟨rfl, rfl, rfl⟩ := h'
    simp
  | cons op ops ih =>
    intro s s' cds ads h
    unfold runIds at h
    cases hst : Op.stepIds s op with
    | none => rw [hst] at h; exact Option.noConfusion h
    | some p =>
      obtain ⟨s₁, ids₁⟩ := p
      obtain ⟨cds₁, ads₁⟩ := ids₁
      rw [hst] at h
      have h' : (match runIds s₁ ops with
          | none => none
          | some (s₂, ids₂) => some (s₂, (cds₁ ++ ids₂.1, ads₁ ++ ids₂.2))) =
          some (s', (cds, ads)) := h
      cases hr : runIds s₁ ops with
      | none => rw [hr] at h'; exact Option.noConfusion h'
      | some q =>
        obtain ⟨s₂, ids₂⟩ := q
        obtain ⟨cds₂, ads₂⟩ := ids₂
        rw [hr] at h'
        have h2 : some (s₂, (cds₁ ++ cds₂, ads₁ ++ ads₂)) = some (s', (cds, ads)) := h'
        simp only [Option.some.injEq, Prod.mk.injEq] at h2
        obtain ⟨rfl, rfl, rfl⟩ := h2
        obtain ⟨⟨hc1, hc2⟩, ⟨ha1, ha2⟩⟩ := ih s₁ s₂ cds₂ ads₂ hr
        obtain ⟨hstc, hsta⟩ := stepIds_spec s op s₁ cds₁ ads₁ hst
        constructor
        · rcases hstc with ⟨rfl, hn⟩ | ⟨rfl, hn⟩
          · constructor
            · rw [List.singleton_append, List.length_cons, List.range'_succ]
              rw [hc1, hn]
              simp
            · rw [hc2, hn]
              simp only [List.length_append, List.length_cons, List.length_nil]
              omega
          · rw [List.nil_append]
            rw [hn] at hc1 hc2
            exact ⟨hc1, hc2⟩
        · rcases hsta with ⟨rfl, hn⟩ | ⟨rfl, hn⟩
          · constructor
            · rw [List.singleton_append, List.length_cons, List.range'_succ]
              rw [ha1, hn]
              simp
            · rw [ha2, hn]
              simp only [List.length_append, List.length_cons, List.length_nil]
              omega
          · rw [List.nil_append]
            rw [hn] at ha1 ha2
            exact ⟨ha1, ha2⟩

/-- C2: for each entity kind, the identifier counter starts at 0 and is
incremented by exactly 1 on every successful creation of that kind and by
nothing else: along any panic-free sequence of mutating calls from a fresh
store, the successful contact creations return exactly the identifiers
0..N-1, distinct and in creation order, with the contact counter ending at
N, and the successful appointment creations return exactly 0..M-1,
distinct and in creation order, with the appointment counter ending at M —
identifiers are never reused, regardless of interleaved updates and
deletions on either collection. -/
theorem identificadores_sequenciais_por_tipo (ops : List Op) (cds ads : List Nat)
    (h : (runIds Agenda.new ops).map Prod.snd = some (cds, ads)) :
    cds = List.range cds.length ∧ cds.Nodup ∧
    ads = List.range ads.length ∧ ads.Nodup ∧
    (runIds Agenda.new ops).map (fun p => p.1.next_contato_id) = some cds.length ∧
    (runIds Agenda.new ops).map (fun p => p.1.next_compromisso_id) =
      some ads.length := by
  cases hrn : runIds Agenda.new ops with
  | none => rw [hrn] at h; exact Option.noConfusion h
  | some p =>
    obtain ⟨s', ids'⟩ := p
    obtain ⟨cds', ads'⟩ := ids'
    rw [hrn] at h
    simp only [Option.map_some', Option.some.injEq, Prod.mk.injEq] at h
    obtain ⟨rfl, rfl⟩ := h
    obtain ⟨⟨hc1, hc2⟩, ⟨ha1, ha2⟩⟩ := runIds_spec ops Agenda.new s' cds' ads' hrn
    have hz : Agenda.new.next_contato_id = 0 := rfl
    have hz' : Agenda.new.next_compromisso_id = 0 := rfl
    rw [hz] at hc1 hc2
    rw [hz'] at ha1 ha2
    rw [← List.range_eq_range'] at hc1 ha1
    refine ⟨hc1, ?_, ha1, ?_, ?_, ?_⟩
    · rw [hc1]
      exact List.nodup_range _
    · rw [ha1]
      exact List.nodup_range _
    · simp only [hrn, Option.map_some', Option.some.injEq]
      omega
    · simp only [hrn, Option.map_some', Option.some.injEq]
      omega

/-- C2 witness: three contact creations and two appointment creations,
interleaved with deletions on both collections, yield the contact
identifiers 0, 1, 2 and the appointment identifiers 0, 1, each in order. -/
theorem identificadores_sequenciais_por_tipo_witness :
    (runIds Agenda.new
      [Op.criarContato "Ana".toList "555".toList 20 "01/01/2000".toList Categoria.Amigo,
       Op.criarCompromisso "Reuniao".toList "01/01/2025".toList "14:00".toList
         Prioridade.Alta 60,
       Op.deletarCompromisso 0,
       Op.criarContato "Bia".toList "222".toList 31 "02/02/2001".toList Categoria.Familiar,
       Op.criarCompromisso "Almoco".toList "02/01/2025".toList "12:30".toList
         Prioridade.Media 45,
       Op.deletarContato 0,
       Op.criarContato "Carlos".toList "333".toList 40 "03/03/1999".toList
         Categoria.Colega]).map Prod.snd = some ([0, 1, 2], [0, 1]) ∧
    [0, 1, 2] = List.range 3 ∧ [0, 1] = List.range 2 :=
  ⟨by decide,
   (identificadores_sequenciais_por_tipo
     [Op.criarContato "Ana".toList "555".toList 20 "01/01/2000".toList Categoria.Amigo,
      Op.criarCompromisso "Reuniao".toList "01/01/2025".toList "14:00".toList
        Prioridade.Alta 60,
      Op.deletarCompromisso 0,
      Op.criarContato "Bia".toList "222".toList 31 "02/02/2001".toList Categoria.Familiar,
      Op.criarCompromisso "Almoco".toList "02/01/2025".toList "12:30".toList
        Prioridade.Media 45,
      Op.deletarContato 0,
      Op.criarContato "Carlos".toList "333".toList 40 "03/03/1999".toList
        Categoria.Colega] [0, 1, 2] [0, 1] (by decide)).1,
   (identificadores_sequenciais_por_tipo
     [Op.criarContato "Ana".toList "555".toList 20 "01/01/2000".toList Categoria.Amigo,
      Op.criarCompromisso "Reuniao".toList "01/01/2025".toList "14:00".toList
        Prioridade.Alta 60,
      Op.deletarCompromisso 0,
      Op.criarContato "Bia".toList "222".toList 31 "02/02/2001".toList Categoria.Familiar,
      Op.criarCompromisso "Almoco".toList "02/01/2025".toList "12:30".toList
        Prioridade.Media 45,
      Op.deletarContato 0,
      Op.criarContato "Carlos".toList "333".toList 40 "03/03/1999".toList
        Categoria.Colega] [0, 1, 2] [0, 1] (by decide)).2.2.1⟩

theorem listar_contatos_filterMap (s : Agenda) :
    listar_contatos s = (List.range s.next_contato_id).filterMap s.contatos := by
  unfold listar_contatos
  suffices h : ∀ (l : List Nat) (init : List Contato),
      List.foldl (fun lista id =>
        match Mapping.get s.contatos id with
        | some contato => lista ++ [contato]
        | none => lista) init l = init ++ l.filterMap s.contatos by
    simpa using h (List.range s.next_contato_id) []
  intro l
  induction l with
  | nil =>
    intro init
    simp
  | cons a l ih =>
    intro init
    simp only [List.foldl_cons, List.filterMap_cons]
    cases hf : Mapping.get s.contatos a
    · rw [ih]
      rw [Mapping.get] at hf
      simp [hf]
    · rw [ih]
      rw [Mapping.get] at hf
      simp [hf]

theorem listar_compromissos_filterMap (s : Agenda) :
    listar_compromissos s =
      (List.range s.next_compromisso_id).filterMap s.compromissos := by
  unfold listar_compromissos
  suffices h : ∀ (l : List Nat) (init : List Compromisso),
      List.foldl (fun lista id =>
        match Mapping.get s.compromissos id with
        | some compromisso => lista ++ [compromisso]
        | none => lista) init l = init ++ l.filterMap s.compromissos by
    simpa using h (List.range s.next_compromisso_id) []
  intro l
  induction l with
  | nil =>
    intro init
    simp
  | cons a l ih =>
    intro init
    simp only [List.foldl_cons, List.filterMap_cons]
    cases hf : Mapping.get s.compromissos a
    · rw [ih]
      rw [Mapping.get] at hf
      simp [hf]
    · rw [ih]
      rw [Mapping.get] at hf
      simp [hf]

/-- C7: listing returns exactly the surviving records with identifiers in
0 up to (excluding) the counter, in ascending identifier order, skipping
identifiers deleted in the past; in particular, creating three contacts
(identifiers 0, 1, 2) and deleting identifier 1 lists exactly the records
of identifiers 0 and 2, in that order. -/
theorem listar_intervalo_com_lacunas (s : Agenda) :
    listar_contatos s = (List.range s.next_contato_id).filterMap s.contatos ∧
    listar_compromissos s =
      (List.range s.next_compromisso_id).filterMap s.compromissos ∧
    (run Agenda.new
      [Op.criarContato "Ana".toList "555".toList 20 "01/01/2000".toList Categoria.Amigo,
       Op.criarContato "Bia".toList "222".toList 31 "02/02/2001".toList Categoria.Familiar,
       Op.criarContato "Carlos".toList "333".toList 40 "03/03/1999".toList Categoria.Colega,
       Op.deletarContato 1]).map (fun p => listar_contatos p.1) =
      some [⟨"Ana".toList, "555".toList, 20, "01/01/2000".toList, Categoria.Amigo⟩,
            ⟨"Carlos".toList, "333".toList, 40, "03/03/1999".toList, Categoria.Colega⟩] := by
  refine ⟨listar_contatos_filterMap s, listar_compromissos_filterMap s, by decide⟩
